import Mathlib

/-!
Shallow embedding of the retrieval-augmented study-assistant core
(`rag_service.py`) — chunker, embedding indexer state, query path,
format table, generation invoker normalization and flashcard parser —
together with theorems settling the specification claims.

Python string operations are modelled character-exactly on `List Char`:
`str.split()` (whitespace, empties dropped), `str.split(sep)` (keeps
empties, non-overlapping left-to-right), `str.find`, `str.replace`,
`str.strip`, `str.lower`, `str.startswith`, and list indexing with
Python semantics (negative indices wrap from the end, out of range is
an error, modelled as `none`).
-/

namespace StudyAssistant

/-- Python `str.isspace` characters relevant to `str.split()` / `str.strip()`:
space, tab, newline, carriage return, vertical tab, form feed. -/
def pyIsSpace (c : Char) : Bool :=
  c == ' ' || c == '\t' || c == '\n' || c == '\x0d' || c == '\x0b' || c == '\x0c'

/-- Does the character list `s` start with the pattern `pat`?
Models Python `s.startswith(pat)`. -/
def startsWithL : List Char → List Char → Bool
  | [], _ => true
  | _ :: _, [] => false
  | p :: ps, c :: cs => p == c && startsWithL ps cs

/-- Accumulator version of whitespace splitting: Python `text.split()`
splits on runs of whitespace and drops empty pieces. -/
def pySplitWsAux : List Char → List Char → List (List Char)
  | [], acc => if acc.isEmpty then [] else [acc.reverse]
  | c :: cs, acc =>
    if pyIsSpace c then
      if acc.isEmpty then pySplitWsAux cs [] else acc.reverse :: pySplitWsAux cs []
    else
      pySplitWsAux cs (c :: acc)

/-- Python `text.split()` (no separator argument), producing words. -/
def pyWords (s : String) : List String :=
  (pySplitWsAux s.data []).map String.mk

/-- Python `s.split(sep)` for a non-empty separator: splits at each
non-overlapping occurrence, scanning left to right, keeping empty segments.
The scan is structural on `s`; after a separator match the remaining
`sep.length - 1` matched characters are consumed via the skip counter. -/
def splitOnAux (sep : List Char) : List Char → Nat → List Char → List (List Char)
  | [], _, acc => [acc.reverse]
  | _ :: cs, k + 1, acc => splitOnAux sep cs k acc
  | c :: cs, 0, acc =>
    if !sep.isEmpty && startsWithL sep (c :: cs) then
      acc.reverse :: splitOnAux sep cs (sep.length - 1) []
    else
      splitOnAux sep cs 0 (c :: acc)

/-- Python `s.split(sep)` on strings (separator must be non-empty in Python;
with an empty separator this returns the whole string as one segment,
a case never exercised by the embedded code). -/
def pySplitOn (s sep : String) : List String :=
  (splitOnAux sep.data s.data 0 []).map String.mk

/-- First index of the substring `pat` in `s`, `none` when absent.
Models Python `s.find(pat)` (which returns -1 when absent). -/
def findSub (pat : List Char) : List Char → Option Nat
  | [] => if pat.isEmpty then some 0 else none
  | c :: cs =>
    if startsWithL pat (c :: cs) then some 0
    else (findSub pat cs).map (· + 1)

/-- Python `s.replace(pat, repl)` on character lists, for non-empty `pat`:
replaces every non-overlapping occurrence, scanning left to right.
Structural on `s`; after a match the remaining `pat.length - 1` matched
characters are consumed via the skip counter. -/
def replaceAux (pat repl : List Char) : List Char → Nat → List Char
  | [], _ => []
  | _ :: cs, k + 1 => replaceAux pat repl cs k
  | c :: cs, 0 =>
    if !pat.isEmpty && startsWithL pat (c :: cs) then
      repl ++ replaceAux pat repl cs (pat.length - 1)
    else
      c :: replaceAux pat repl cs 0

/-- Python `s.replace(pat, repl)` on strings, including the empty-pattern
case (Python interleaves `repl` between all characters and at both ends). -/
def pyReplace (s pat repl : String) : String :=
  if pat.data.isEmpty then
    String.mk (repl.data ++ (s.data.map (fun c => c :: repl.data)).flatten)
  else
    String.mk (replaceAux pat.data repl.data s.data 0)

/-- Python `s.strip()`: remove leading and trailing whitespace. -/
def pyStrip (l : List Char) : List Char :=
  ((l.dropWhile pyIsSpace).reverse.dropWhile pyIsSpace).reverse

/-- Python `s.lower()` (per-character, exact on the ASCII text the
embedded code matches against). -/
def pyLower (l : List Char) : List Char :=
  l.map Char.toLower

/-- Python list indexing `l[i]` for `int` (or numpy integer) `i`:
a negative index counts from the end; out of range raises, modelled `none`. -/
def pyGetElem (l : List String) (i : Int) : Option String :=
  if 0 ≤ i then l.get? i.toNat
  else if (-i).toNat ≤ l.length then l.get? (l.length - (-i).toNat)
  else none

/-! ## Chunker (`_chunk_text`, rag_service.py lines 55-63)

`for i in range(0, len(words), self.chunk_size - self.chunk_overlap)`
with `chunk_size = 2000`, `chunk_overlap = 200`, i.e. step 1800; each
iteration takes `words[i : i + 2000]` (always non-empty since `i < len(words)`). -/

/-- Word-level core of `_chunk_text` with explicit fuel (any fuel at least
`ws.length` gives the loop's value, since each iteration consumes at
least one word): successive windows of up to 2000 words taken every
1800 words, exactly the Python loop. -/
def chunkWordsF : Nat → List String → List (List String)
  | _, [] => []
  | 0, _ :: _ => []
  | f + 1, w :: ws => ((w :: ws).take 2000) :: chunkWordsF f ((w :: ws).drop 1800)

/-- Word-level core of `_chunk_text`: the Python loop
`for i in range(0, len(words), 1800): chunks.append(words[i:i+2000])`. -/
def chunkWords (ws : List String) : List (List String) :=
  chunkWordsF ws.length ws

/-- `_chunk_text`: split the text into words (Python `text.split()`),
window them, and join each window with single spaces (`' '.join(chunk)`). -/
def _chunk_text (text : String) : List String :=
  (chunkWords (pyWords text)).map (fun c => String.intercalate " " c)

/-- The concatenation of the chunker's windows with the overlap removed:
the first window whole, every later window with its first 200
(`chunk_overlap`) words dropped. -/
def reconWords : List (List String) → List String
  | [] => []
  | c :: cs => c ++ (cs.map (List.drop 200)).flatten

/-! ## Embedding indexer state (rag_service.py lines 49-53, 65-94) -/

/-- The retrieval state a `RAGStudyAssistant` instance holds:
`self.documents` (the ordered chunk store) and `self.vector_index`,
represented by its row count `ntotal` (`none` while
`self.vector_index is None`). -/
structure RAGState where
  documents : List String
  vectorRows : Option Nat
deriving DecidableEq

/-- Invariant I1: the Document Store length equals the Vector Index row
count (an absent index has no rows). -/
def I1 (s : RAGState) : Prop :=
  s.documents.length = s.vectorRows.getD 0

/-- `add_documents` (lines 65-94) on runs where every embedding batch
succeeds: chunks of all documents are appended to `self.documents`, then
embedded in batches of 100, one vector per chunk (spec section 6 embedding
capability), stacked and appended to the index, which is created on first
use. When there are no chunks at all, the batch loop produces nothing and
the method returns right after having extended `self.documents` by
nothing, leaving the index untouched. An empty `documents` argument is a
no-op. -/
def add_documents (s : RAGState) (documents : List String) : RAGState :=
  if documents = [] then s
  else
    let all_chunks := (documents.map _chunk_text).flatten
    if all_chunks = [] then { s with documents := s.documents ++ all_chunks }
    else
      { documents := s.documents ++ all_chunks
        vectorRows := some (s.vectorRows.getD 0 + all_chunks.length) }

/-! ## Query path (rag_service.py lines 96-164) -/

/-- The two pipeline shapes `query` distinguishes by
`self.qa_pipeline.task == "text2text-generation"`: the flan-t5
sequence-to-sequence pipeline, or the gpt2 causal fallback. -/
inductive PipelineTask where
  | text2text
  | causalLM
deriving DecidableEq

/-- Lines 162 and 262: `generated_text.replace(prompt, "")`, the
causal-continuation normalization meant to strip the echoed prompt. -/
def causalNormalize (generated_text prompt : String) : String :=
  pyReplace generated_text prompt ""

/-- The `format_instructions` dict `.get(answer_format, default)`
(lines 122-130). -/
def format_instructions (answer_format : String) : String :=
  if answer_format = "full" then
    "You are a helpful AI study assistant. Answer the question in a friendly, conversational tone, providing detailed information from the context as if explaining to a curious student."
  else if answer_format = "short_summary" then
    "You are a helpful AI study assistant. Provide a concise summary of the key points from the context in 2-3 sentences, in a friendly and engaging way."
  else if answer_format = "bullet_points" then
    "You are a helpful AI study assistant. Extract and present the main information from the context in clear bullet points, making it easy and fun to read."
  else if answer_format = "long_answer" then
    "You are a helpful AI study assistant. Provide a long and detailed answer, elaborating on all relevant aspects from the context in a conversational manner, like chatting with a student."
  else if answer_format = "one_word" then
    "You are a helpful AI study assistant. Provide a single word answer based on the context, keeping it straightforward."
  else if answer_format = "short_answer" then
    "You are a helpful AI study assistant. Provide a brief answer in one or two sentences based on the context, in a friendly tone."
  else
    "Answer in full sentences and in detail."

/-- The `max_len` dict `.get(answer_format, 2048)` (lines 135-142). -/
def formatMaxLen (answer_format : String) : Nat :=
  if answer_format = "full" then 2048
  else if answer_format = "short_summary" then 1024
  else if answer_format = "bullet_points" then 1024
  else if answer_format = "long_answer" then 2048
  else if answer_format = "one_word" then 20
  else if answer_format = "short_answer" then 1024
  else 2048

/-- Line 132: the composed prompt. -/
def queryPrompt (instruction context question : String) : String :=
  instruction ++ " Based on the provided context, answer the following educational question accurately. Context: " ++ context ++ " Question: " ++ question

/-- FAISS `IndexFlatL2.search(x, 30)` labels (line 113): the index's rows
sorted by ascending distance to the embedded question are `ranking` (one
entry per row; the ordering comes from the opaque embedding geometry, so
it is a parameter). FAISS returns exactly `k` labels, padding with `-1`
when `k` exceeds the row count. -/
def faissSearchLabels (ranking : List Nat) (k : Nat) : List Int :=
  (ranking.take k).map Int.ofNat ++ List.replicate (k - ranking.length) (-1)

/-- Line 119: `"\n".join([self.documents[i] for i in I[0]])`. Python
raises `IndexError` (modelled as `none`) if any label is out of range
under Python indexing. -/
def queryContext (documents : List String) (labels : List Int) : Option String :=
  if labels.all (fun i => (pyGetElem documents i).isSome) then
    some (String.intercalate "\n" (labels.map (fun i => (pyGetElem documents i).getD "")))
  else none

/-- CPython's `AttributeError` message for accessing `.task` on `None`,
raised (and caught by the `except` at line 163) when `query` reaches
generation while `self.qa_pipeline` is `None`. -/
def noneTaskMessage : String :=
  String.mk (Char.ofNat 39 :: "NoneType".data
    ++ Char.ofNat 39 :: " object has no attribute ".data
    ++ Char.ofNat 39 :: "task".data ++ [Char.ofNat 39])

/-- Lines 144-164: the generation invocation inside `query`'s `try`, for
both pipeline shapes; the `except` wraps the message of any raised error
into a returned string. An absent pipeline raises `AttributeError` at
`self.qa_pipeline.task`, likewise caught. -/
def queryGenerate (task : Option PipelineTask)
    (gen : String → Nat → Except String String)
    (prompt : String) (max_len : Nat) : String :=
  match task with
  | none => "Error during generation: " ++ noneTaskMessage
  | some .text2text =>
    match gen prompt max_len with
    | .ok generated_text => generated_text
    | .error e => "Error during generation: " ++ e
  | some .causalLM =>
    match gen prompt max_len with
    | .ok generated_text => causalNormalize generated_text prompt
    | .error e => "Error during generation: " ++ e

/-- `query` (lines 96-164). External collaborators are parameters: `task`
is the loaded pipeline's shape (`none` when `self.qa_pipeline is None`),
`ranking` is the index's distance-ascending row ordering for the embedded
question, `gen` the generation capability (`Except.error e` models an
exception raised with message `e`). The result is `some` returned string;
`none` models an exception escaping `query` (only possible from an
out-of-range document read, which cannot occur on consistent states). -/
def query (s : RAGState) (task : Option PipelineTask) (ranking : List Nat)
    (gen : String → Nat → Except String String)
    (question : String) (context_texts : Option (List String))
    (answer_format : String) : Option String :=
  let genPath (context : String) : Option String :=
    some (queryGenerate task gen
      (queryPrompt (format_instructions answer_format) context question)
      (formatMaxLen answer_format))
  let indexPath : Option String :=
    if s.vectorRows = none ∨ s.documents = [] then
      some "Please upload some study materials first!"
    else if task = none then some "QA model is not loaded properly."
    else
      let labels := faissSearchLabels ranking 30
      if labels = [] then some "No relevant documents found."
      else
        match queryContext s.documents labels with
        | none => none
        | some context => genPath context
  match context_texts with
  | some ts =>
    if ts ≠ [] then genPath (String.intercalate "\n" ((ts.map _chunk_text).flatten))
    else indexPath
  | none => indexPath

/-! ## Flashcard generation and parsing (rag_service.py lines 221-325) -/

/-- A flashcard record as built at lines 289-294 and 314-319:
`review_count` starts at 0, `last_reviewed` at `None`. -/
structure Flashcard where
  question : String
  answer : String
  review_count : Nat
  last_reviewed : Option String
deriving DecidableEq

/-- One segment of the marker strategy (lines 278-294): needs at least 3
lines, a first line starting case-insensitively with `question:` and one
with `answer:`, and non-empty stripped content behind both markers. -/
def parseMarkerPart (part : List Char) : Option Flashcard :=
  let lines := splitOnAux ['\n'] part 0 []
  if lines.length ≥ 3 then
    match lines.filter (fun l => startsWithL "question:".data (pyLower l)),
        lines.filter (fun l => startsWithL "answer:".data (pyLower l)) with
    | question_line :: _, answer_line :: _ =>
      let question := pyStrip (question_line.drop 9)
      let answer := pyStrip (answer_line.drop 7)
      if question ≠ [] ∧ answer ≠ [] then
        some { question := String.mk question, answer := String.mk answer,
               review_count := 0, last_reviewed := none }
      else none
    | _, _ => none
  else none

/-- One segment of the fallback strategy (lines 300-319): everything up to
the first case-insensitive `answer:` is the question; the answer runs to
the next case-insensitive `question:` or the end. -/
def parseFallbackPart (part : List Char) : Option Flashcard :=
  match findSub "answer:".data (pyLower part) with
  | none => none
  | some answer_start =>
    let question := pyStrip (part.take answer_start)
    let remaining := pyStrip (part.drop (answer_start + 7))
    let answer :=
      match findSub "question:".data (pyLower remaining) with
      | some next_question => pyStrip (remaining.take next_question)
      | none => pyStrip remaining
    if question ≠ [] ∧ answer ≠ [] then
      some { question := String.mk question, answer := String.mk answer,
             review_count := 0, last_reviewed := none }
    else none

/-- The flashcard parser (lines 266-322): normalize line endings, split on
the literal `"Flashcard "`; if that yields more than one segment use the
marker strategy on every later segment, otherwise split on `"Question:"`
and use the fallback strategy; truncate the result to 5 cards. Every
operation involved is total, so the enclosing `except` (which would
return `[]`) is never reached from parsing. -/
def parseFlashcards (generated_text : String) : List Flashcard :=
  let normalized_text := pyReplace (pyReplace generated_text "\r\n" "\n") "\r" "\n"
  let parts := splitOnAux "Flashcard ".data normalized_text.data 0 []
  let flashcards :=
    if parts.length > 1 then
      (parts.drop 1).filterMap parseMarkerPart
    else
      let question_parts := splitOnAux "Question:".data normalized_text.data 0 []
      (question_parts.drop 1).filterMap parseFallbackPart
  flashcards.take 5

/-- The few-shot example block embedded in the flashcard prompt (line 243). -/
def fewShotExamples : String :=
  "Flashcard 1:\nQuestion: What is the capital of France?\nAnswer: Paris\n\nFlashcard 2:\nQuestion: What is 2+2?\nAnswer: 4\n\nFlashcard 3:\nQuestion: What is the color of the sky?\nAnswer: Blue\n\nFlashcard 4:\nQuestion: What is the largest planet?\nAnswer: Jupiter\n\nFlashcard 5:\nQuestion: What is water made of?\nAnswer: Hydrogen and oxygen"

/-- The flashcard generation prompt (line 243). -/
def flashcardPrompt (context : String) : String :=
  "Generate 5 flashcards from the following study material. Each flashcard must have a question and answer. Format your response exactly like this example:\n\n"
    ++ fewShotExamples ++ "\n\nContext: " ++ context ++ "\n\nFlashcards:"

/-- Lines 236-239: truncate the context to `2048 * 4` characters, marking
the cut with an ellipsis. -/
def truncateContext (context : String) : String :=
  if context.length > 2048 * 4 then String.mk (context.data.take (2048 * 4)) ++ "..."
  else context

/-- `generate_flashcards` (lines 221-325): `[]` when the pipeline is
absent, or when no content is given and the corpus is empty; otherwise
builds the bounded context (first 30 chunks), prompts the generation
capability, strips the causal echo, parses, and truncates to 5; a raised
generation error yields `[]` through the `except`. -/
def generate_flashcards (s : RAGState) (task : Option PipelineTask)
    (gen : String → Nat → Except String String)
    (content : Option String) : List Flashcard :=
  match task with
  | none => []
  | some k =>
    let contextSource : Option String :=
      match content with
      | some c => some (String.intercalate "\n" ((_chunk_text c).take 30))
      | none =>
        if s.vectorRows = none ∨ s.documents = [] then none
        else some (String.intercalate "\n" (s.documents.take 30))
    match contextSource with
    | none => []
    | some context0 =>
      let prompt := flashcardPrompt (truncateContext context0)
      match gen prompt 2048 with
      | .error _ => []
      | .ok generated_text =>
        parseFlashcards (match k with
          | .text2text => generated_text
          | .causalLM => causalNormalize generated_text prompt)

theorem chunkWordsF_congr (f : Nat) :
    ∀ (g : Nat) (ws : List String), ws.length ≤ f → ws.length ≤ g →
      chunkWordsF f ws = chunkWordsF g ws := by
  induction f with
  | zero =>
    intro g ws hf _
    cases ws with
    | nil => cases g <;> rfl
    | cons w t => simp at hf
  | succ f ih =>
    intro g ws hf hg
    cases ws with
    | nil => cases g <;> rfl
    | cons w t =>
      cases g with
      | zero => simp at hg
      | succ g =>
        simp only [chunkWordsF, List.cons.injEq, true_and]
        apply ih
        · simp only [List.length_drop, List.length_cons] at hf ⊢; omega
        · simp only [List.length_drop, List.length_cons] at hg ⊢; omega

theorem chunkWords_nil : chunkWords [] = [] := rfl

theorem chunkWords_cons (ws : List String) (h : ws ≠ []) :
    chunkWords ws = ws.take 2000 :: chunkWords (ws.drop 1800) := by
  cases ws with
  | nil => exact absurd rfl h
  | cons w t =>
    show chunkWordsF (t.length + 1) (w :: t) = _
    simp only [chunkWordsF, List.cons.injEq, true_and]
    apply chunkWordsF_congr
    · simp only [List.length_drop, List.length_cons]; omega
    · exact le_rfl

theorem chunkWordsF_length (f : Nat) :
    ∀ ws : List String, ws.length ≤ f →
      (chunkWordsF f ws).length = (ws.length + 1799) / 1800 := by
  induction f with
  | zero =>
    intro ws h
    cases ws with
    | nil => decide
    | cons w t => simp at h
  | succ f ih =>
    intro ws h
    cases ws with
    | nil => rfl
    | cons w t =>
      simp only [chunkWordsF, List.length_cons]
      rw [ih _ (by simp only [List.length_drop, List.length_cons] at h ⊢; omega)]
      simp only [List.length_drop, List.length_cons]
      omega

/-- The chunker produces exactly `⌈W / 1800⌉` windows for a `W`-word input
(`(W + 1799) / 1800` in truncating natural division). -/
theorem chunkWords_length (ws : List String) :
    (chunkWords ws).length = (ws.length + 1799) / 1800 :=
  chunkWordsF_length ws.length ws le_rfl

theorem chunkWordsF_sizes (f : Nat) :
    ∀ ws : List String, ∀ c ∈ chunkWordsF f ws, c.length ≤ 2000 := by
  induction f with
  | zero =>
    intro ws c hc
    cases ws <;> simp [chunkWordsF] at hc
  | succ f ih =>
    intro ws c hc
    cases ws with
    | nil => simp [chunkWordsF] at hc
    | cons w t =>
      simp only [chunkWordsF, List.mem_cons] at hc
      rcases hc with h | h
      · subst h; exact List.length_take_le 2000 _
      · exact ih _ c h

/-- Every window the chunker produces has at most 2000 words. -/
theorem chunkWords_sizes (ws : List String) :
    ∀ c ∈ chunkWords ws, c.length ≤ 2000 :=
  chunkWordsF_sizes ws.length ws

theorem chunkWordsF_flatten_drop (f : Nat) :
    ∀ ws : List String, ws.length ≤ f →
      ((chunkWordsF f ws).map (List.drop 200)).flatten = ws.drop 200 := by
  induction f with
  | zero =>
    intro ws h
    cases ws with
    | nil => rfl
    | cons w t => simp at h
  | succ f ih =>
    intro ws h
    cases ws with
    | nil => rfl
    | cons w t =>
      simp only [chunkWordsF, List.map_cons, List.flatten_cons]
      rw [ih _ (by simp only [List.length_drop, List.length_cons] at h ⊢; omega)]
      rw [List.drop_take 2000 200 (w :: t), List.drop_drop 200 1800 (w :: t)]
      conv_rhs => rw [← List.take_append_drop (2000 - 200) (List.drop 200 (w :: t))]
      congr 1
      rw [List.drop_drop]

/-- C9: for every input word sequence, concatenating the chunker's output
chunks with the overlap removed (dropping the first `chunk_overlap = 200`
words of every chunk after the first) reconstructs exactly the original
word sequence. (`_chunk_text` is, by definition, `chunkWords` on the
text's words followed by joining each window with spaces.)
Removing the 200-word overlap from every window after the first and
concatenating reconstructs the original word sequence. -/
theorem C9_overlap_reconstruction (ws : List String) :
    reconWords (chunkWords ws) = ws := by
  cases hw : ws with
  | nil => rfl
  | cons w t =>
    rw [chunkWords_cons _ (by simp)]
    show (w :: t).take 2000 ++
      ((chunkWords ((w :: t).drop 1800)).map (List.drop 200)).flatten = w :: t
    simp only [chunkWords]
    rw [chunkWordsF_flatten_drop _ _ le_rfl, List.drop_drop 200 1800 (w :: t)]
    norm_num


/-! ## Helper lemmas about the Python primitives and the search step -/

theorem startsWithL_append (p s : List Char) : startsWithL p (p ++ s) = true := by
  induction p with
  | nil => rfl
  | cons a q ih => simp [startsWithL, ih]

theorem replaceAux_skip (p repl : List Char) :
    ∀ (q s : List Char), replaceAux p repl (q ++ s) q.length = replaceAux p repl s 0 := by
  intro q
  induction q with
  | nil => intro s; rfl
  | cons a q ih =>
    intro s
    show replaceAux p repl (a :: (q ++ s)) (q.length + 1) = _
    rw [show replaceAux p repl (a :: (q ++ s)) (q.length + 1)
        = replaceAux p repl (q ++ s) q.length from rfl]
    exact ih s

theorem replaceAux_strip (p s : List Char) (hp : p ≠ []) :
    replaceAux p [] (p ++ s) 0 = replaceAux p [] s 0 := by
  cases p with
  | nil => exact absurd rfl hp
  | cons a q =>
    show replaceAux (a :: q) [] (a :: (q ++ s)) 0 = _
    rw [show replaceAux (a :: q) [] (a :: (q ++ s)) 0
        = if !(a :: q).isEmpty && startsWithL (a :: q) (a :: (q ++ s)) then
            [] ++ replaceAux (a :: q) [] (q ++ s) ((a :: q).length - 1)
          else a :: replaceAux (a :: q) [] (q ++ s) 0 from rfl]
    rw [if_pos (by
      have h := startsWithL_append (a :: q) s
      simpa using h)]
    show replaceAux (a :: q) [] (q ++ s) q.length = _
    exact replaceAux_skip _ _ q s

theorem replaceAux_no_occurrence (p : List Char) :
    ∀ s, findSub p s = none → replaceAux p [] s 0 = s := by
  intro s
  induction s with
  | nil => intro _; rfl
  | cons c cs ih =>
    intro h
    rw [show findSub p (c :: cs)
        = if startsWithL p (c :: cs) then some 0 else (findSub p cs).map (· + 1) from rfl] at h
    by_cases hs : startsWithL p (c :: cs)
    · rw [if_pos hs] at h; exact absurd h (by simp)
    · rw [if_neg hs] at h
      have h' : findSub p cs = none := by
        cases hfb : findSub p cs with
        | none => rfl
        | some v => rw [hfb] at h; simp at h
      rw [show replaceAux p [] (c :: cs) 0
          = if !p.isEmpty && startsWithL p (c :: cs) then
              [] ++ replaceAux p [] cs (p.length - 1)
            else c :: replaceAux p [] cs 0 from rfl]
      rw [if_neg (by simp [hs]), ih h']

theorem faissSearchLabels_length (ranking : List Nat) (k : Nat) :
    (faissSearchLabels ranking k).length = k := by
  unfold faissSearchLabels
  rw [List.length_append, List.length_map, List.length_take, List.length_replicate]
  omega

theorem queryContext_isSome (documents : List String) (ranking : List Nat) (k : Nat)
    (hd : documents ≠ []) (hr : ∀ r ∈ ranking, r < documents.length) :
    ∃ ctx, queryContext documents (faissSearchLabels ranking k) = some ctx := by
  have hall : (faissSearchLabels ranking k).all
      (fun i => (pyGetElem documents i).isSome) = true := by
    rw [List.all_eq_true]
    intro i hi
    unfold faissSearchLabels at hi
    rw [List.mem_append] at hi
    show (pyGetElem documents i).isSome = true
    rcases hi with hi | hi
    · rw [List.mem_map] at hi
      obtain ⟨r, hr2, rfl⟩ := hi
      have hrlt : r < documents.length := hr r (List.take_subset _ _ hr2)
      unfold pyGetElem
      rw [if_pos (show (0 : Int) ≤ Int.ofNat r from Int.natCast_nonneg r)]
      rw [show (Int.ofNat r).toNat = r from rfl]
      rw [List.get?_eq_get hrlt]
      rfl
    · rw [List.eq_of_mem_replicate hi]
      have hlen : 0 < documents.length := List.length_pos.mpr hd
      unfold pyGetElem
      rw [if_neg (by norm_num)]
      rw [if_pos (show ((-(-1 : Int)).toNat ≤ documents.length) by norm_num; omega)]
      rw [List.get?_eq_get (show documents.length - (-(-1 : Int)).toNat < documents.length
        by norm_num; omega)]
      rfl
  unfold queryContext
  rw [if_pos hall]
  exact ⟨_, rfl⟩

theorem queryGenerate_error (k : PipelineTask) (e prompt : String) (max_len : Nat) :
    queryGenerate (some k) (fun _ _ => Except.error e) prompt max_len
      = "Error during generation: " ++ e := by
  cases k <;> rfl

/-! ## Claim theorems -/

theorem pySplitWsAux_flat_replicate (n : Nat) :
    pySplitWsAux (List.replicate n ['a', ' ']).flatten [] = List.replicate n ['a'] := by
  induction n with
  | zero => rfl
  | succ n ih =>
    have h1 : (List.replicate (n + 1) ['a', ' ']).flatten
        = 'a' :: ' ' :: (List.replicate n ['a', ' ']).flatten := by
      rw [List.replicate_succ, List.flatten_cons]; rfl
    have h2 : pySplitWsAux ('a' :: ' ' :: (List.replicate n ['a', ' ']).flatten) []
        = ['a'] :: pySplitWsAux (List.replicate n ['a', ' ']).flatten [] := rfl
    rw [h1, h2, ih, List.replicate_succ]

theorem pyWords_replicate (n : Nat) :
    pyWords (String.mk (List.replicate n ['a', ' ']).flatten) = List.replicate n "a" := by
  unfold pyWords
  rw [show (String.mk (List.replicate n ['a', ' ']).flatten).data
      = (List.replicate n ['a', ' ']).flatten from rfl]
  rw [pySplitWsAux_flat_replicate, List.map_replicate]

theorem chunkWords_replicate1900 :
    chunkWords (List.replicate 1900 "a")
      = [List.replicate 1900 "a", List.replicate 100 "a"] := by
  rw [chunkWords_cons _ (List.ne_nil_of_length_pos
      (by rw [List.length_replicate]; omega)), List.drop_replicate]
  rw [List.take_of_length_le (by rw [List.length_replicate]; omega)]
  norm_num
  rw [chunkWords_cons _ (List.ne_nil_of_length_pos
      (by rw [List.length_replicate]; omega)), List.drop_replicate]
  rw [List.take_of_length_le (by rw [List.length_replicate]; omega)]
  norm_num
  exact chunkWords_nil

/-- C1 (amended): for every input text of `W = (pyWords text).length`
words the chunker produces exactly `⌈W / 1800⌉` chunks — that is,
`(W + 1799) / 1800` in natural division — each chunk holding at most
2000 words; empty or whitespace-only input yields the empty sequence.
The originally claimed count `⌈max(0, W − 200) / 1800⌉`, and the clause
that only the final chunk may be shorter than 2000 words, are refuted by
`C1_chunk_count_counterexample`. -/
theorem C1_chunk_count (text : String) :
    (_chunk_text text).length = ((pyWords text).length + 1799) / 1800
    ∧ (∀ c ∈ chunkWords (pyWords text), c.length ≤ 2000)
    ∧ (pyWords text = [] → _chunk_text text = []) := by
  refine ⟨?_, chunkWords_sizes _, ?_⟩
  · unfold _chunk_text
    rw [List.length_map]
    exact chunkWords_length _
  · intro h
    unfold _chunk_text
    rw [h]
    rfl

theorem C1_chunk_count_witness :
    _chunk_text "   " = [] ∧ (["a", "b"] : List String).length ≤ 2000 :=
  ⟨(C1_chunk_count "   ").2.2 (by decide),
   (C1_chunk_count "a b").2.1 ["a", "b"] (by decide)⟩

/-- C1 counterexample: a text of W = 1900 words ("a " repeated 1900
times). The claimed formula gives `⌈max(0, 1900 − 200) / 1800⌉ = 1`
chunk, but the code produces 2; moreover the first chunk has 1900 < 2000
words although it is not the final one. -/
theorem C1_chunk_count_counterexample :
    (_chunk_text (String.mk (List.replicate 1900 ['a', ' ']).flatten)).length = 2
    ∧ ((1900 - 200 + 1799 : Nat) / 1800 = 1)
    ∧ (chunkWords (pyWords (String.mk (List.replicate 1900 ['a', ' ']).flatten))).map
        List.length = [1900, 100] := by
  refine ⟨?_, by norm_num, ?_⟩
  · unfold _chunk_text
    rw [List.length_map, pyWords_replicate, chunkWords_replicate1900]
    rfl
  · rw [pyWords_replicate, chunkWords_replicate1900]
    rw [List.map_cons, List.map_cons, List.map_nil,
      List.length_replicate, List.length_replicate]

/-- C4 (amended): the six literal `answer_format` values resolve to their
documented `max_length` (`one_word` 20; `full` and `long_answer` 2048;
`short_summary`, `bullet_points`, `short_answer` 1024); every other value
falls back, without error, to `max_length` 2048 together with the literal
default instruction "Answer in full sentences and in detail." — which is
not the `full` format's instruction text (see
`C4_format_fallback_counterexample`). -/
theorem C4_format_fallback (fmt : String)
    (h : fmt ∉ ["full", "short_summary", "bullet_points", "long_answer",
      "one_word", "short_answer"]) :
    formatMaxLen "full" = 2048 ∧ formatMaxLen "long_answer" = 2048
    ∧ formatMaxLen "short_summary" = 1024 ∧ formatMaxLen "bullet_points" = 1024
    ∧ formatMaxLen "short_answer" = 1024 ∧ formatMaxLen "one_word" = 20
    ∧ formatMaxLen fmt = 2048
    ∧ format_instructions fmt = "Answer in full sentences and in detail." := by
  simp only [List.mem_cons, not_or] at h
  obtain ⟨h1, h2, h3, h4, h5, h6, -⟩ := h
  refine ⟨rfl, rfl, rfl, rfl, rfl, rfl, ?_, ?_⟩
  · unfold formatMaxLen
    rw [if_neg h1, if_neg h2, if_neg h3, if_neg h4, if_neg h5, if_neg h6]
  · unfold format_instructions
    rw [if_neg h1, if_neg h2, if_neg h3, if_neg h4, if_neg h5, if_neg h6]

theorem C4_format_fallback_witness :
    formatMaxLen "medium" = 2048
    ∧ format_instructions "medium" = "Answer in full sentences and in detail." :=
  ⟨(C4_format_fallback "medium" (by decide)).2.2.2.2.2.2.1,
   (C4_format_fallback "medium" (by decide)).2.2.2.2.2.2.2⟩

/-- C4 counterexample: an unrecognized format value resolves to the
default instruction, which is not the `full` format's instruction text,
so the fallback is not "the full policy" as claimed (its max_length,
2048, does coincide). -/
theorem C4_format_fallback_counterexample :
    format_instructions "unknown_format" ≠ format_instructions "full"
    ∧ formatMaxLen "unknown_format" = 2048 := by decide

/-- C5: the flashcard parser is total — every parse failure merely skips
a segment and the embedding returns a plain list, never an exception —
and its output is truncated to at most 5 flashcards no matter how many
valid segments the generated text contains. -/
theorem C5_parser_bounded (generated_text : String) :
    (parseFlashcards generated_text).length ≤ 5 :=
  List.length_take_le 5 _

/-- C7 (amended): the causal-continuation invoker removes every
occurrence of the prompt from the output (Python `str.replace` removes
all occurrences, not only a leading echo); consequently, when the output
contains the prompt as a prefix and the prompt does not occur again in
the remainder, the returned text is exactly that remainder. The
claim as stated — always exactly the suffix after the prompt prefix — is
refuted by `C7_causal_strip_counterexample`. -/
theorem C7_causal_strip (prompt suffix : String)
    (h : findSub prompt.data suffix.data = none) :
    causalNormalize (prompt ++ suffix) prompt = suffix := by
  have hp : prompt.data ≠ [] := by
    intro hnil
    rw [hnil] at h
    cases hsd : suffix.data with
    | nil => rw [hsd] at h; simp [findSub] at h
    | cons c cs => rw [hsd] at h; simp [findSub, startsWithL] at h
  unfold causalNormalize pyReplace
  rw [if_neg (by simpa using hp)]
  rw [show ("" : String).data = ([] : List Char) from rfl]
  rw [String.data_append]
  rw [replaceAux_strip _ _ hp, replaceAux_no_occurrence _ _ h]

theorem C7_causal_strip_witness :
    causalNormalize ("ab" ++ "cd") "ab" = "cd" :=
  C7_causal_strip "ab" "cd" (by decide)

/-- C7 counterexample: the output "pap" contains the prompt "p" as a
prefix, with remainder "ap"; the invoker returns "a", not "ap", because
`replace` also removed the second occurrence of the prompt. -/
theorem C7_causal_strip_counterexample :
    ("pap" : String) = "p" ++ "ap"
    ∧ causalNormalize "pap" "p" = "a"
    ∧ ("a" : String) ≠ "ap" := by decide

/-- C8: the flashcard parser applied to the literal 5-example few-shot
block from the generation prompt parses exactly the 5 example cards, in
order, each with `review_count = 0` and `last_reviewed = none`. -/
theorem C8_fewshot_parse :
    parseFlashcards fewShotExamples =
      [⟨"What is the capital of France?", "Paris", 0, none⟩,
       ⟨"What is 2+2?", "4", 0, none⟩,
       ⟨"What is the color of the sky?", "Blue", 0, none⟩,
       ⟨"What is the largest planet?", "Jupiter", 0, none⟩,
       ⟨"What is water made of?", "Hydrogen and oxygen", 0, none⟩] := by decide

/-- C2: after an `add_documents` call on which every embedding batch
succeeds (the embedding models exactly such runs), invariant I1 is
preserved — the Document Store length equals the Vector Index row
count — and the new chunks are appended to the Document Store in
original document-and-chunk order. -/
theorem C2_store_index_sync (s : RAGState) (docs : List String) (h : I1 s) :
    I1 (add_documents s docs)
    ∧ (add_documents s docs).documents
        = s.documents ++ (docs.map _chunk_text).flatten := by
  unfold add_documents
  by_cases hd : docs = []
  · subst hd
    rw [if_pos rfl]
    exact ⟨h, by simp⟩
  · rw [if_neg hd]
    dsimp only
    by_cases hc : (docs.map _chunk_text).flatten = []
    · rw [if_pos hc]
      constructor
      · unfold I1 at h ⊢
        simpa [hc] using h
      · rfl
    · rw [if_neg hc]
      constructor
      · unfold I1 at h ⊢
        simp [List.length_append, h]
      · rfl

theorem C2_store_index_sync_witness :
    I1 (add_documents ⟨[], none⟩ ["a b"])
    ∧ (add_documents ⟨[], none⟩ ["a b"]).documents
        = [] ++ ((["a b"].map _chunk_text).flatten) :=
  C2_store_index_sync ⟨[], none⟩ ["a b"] rfl

/-- C3, evaluated at the failing input (3 stored chunks, row ranking
[1, 0, 2]): the code requests 30 neighbors regardless of the corpus
size — the labels array has length 30 > 3 and contains the FAISS pad
label −1 — and the context is built from all 30 labels, the 27 pad
entries resolving through Python negative indexing to the last stored
chunk, rather than from at most 3 results at valid row positions; the
query nevertheless completes and returns the generated text. -/
theorem C3_search_overrequest :
    (faissSearchLabels [1, 0, 2] 30).length = 30
    ∧ (-1 : Int) ∈ faissSearchLabels [1, 0, 2] 30
    ∧ queryContext ["c0", "c1", "c2"] (faissSearchLabels [1, 0, 2] 30)
        = some (String.intercalate "\n" (["c1", "c0"] ++ List.replicate 28 "c2"))
    ∧ query ⟨["c0", "c1", "c2"], some 3⟩ (some .text2text) [1, 0, 2]
        (fun _ _ => .ok "answer text") "q" none "full" = some "answer text" := by
  decide

/-- C6: whenever `query` reaches the generation step and the underlying
capability raises an error, the error message is wrapped into a returned
string ("Error during generation: ..."), not propagated — on the
supplied-context path and on the index path alike. -/
theorem C6_generation_error_returned (s : RAGState) (k : PipelineTask)
    (ranking : List Nat) (question fmt e : String) (ts : List String)
    (hts : ts ≠ []) (hvr : s.vectorRows ≠ none) (hdocs : s.documents ≠ [])
    (hrange : ∀ r ∈ ranking, r < s.documents.length) :
    query s (some k) ranking (fun _ _ => Except.error e) question (some ts) fmt
      = some ("Error during generation: " ++ e)
    ∧ query s (some k) ranking (fun _ _ => Except.error e) question none fmt
      = some ("Error during generation: " ++ e) := by
  constructor
  · unfold query
    dsimp only
    rw [if_pos hts, queryGenerate_error]
  · unfold query
    dsimp only
    rw [if_neg (by push_neg; exact ⟨hvr, hdocs⟩)]
    rw [if_neg (by simp)]
    rw [if_neg (List.ne_nil_of_length_pos
      (by rw [faissSearchLabels_length]; omega))]
    obtain ⟨ctx, hctx⟩ := queryContext_isSome s.documents ranking 30 hdocs hrange
    rw [hctx]
    dsimp only
    rw [queryGenerate_error]

theorem C6_generation_error_returned_witness :
    query ⟨["d"], some 1⟩ (some .text2text) [0]
        (fun _ _ => Except.error "boom") "q" (some ["x"]) "full"
      = some ("Error during generation: " ++ "boom")
    ∧ query ⟨["d"], some 1⟩ (some .text2text) [0]
        (fun _ _ => Except.error "boom") "q" none "full"
      = some ("Error during generation: " ++ "boom") :=
  C6_generation_error_returned ⟨["d"], some 1⟩ .text2text [0] "q" "full" "boom"
    ["x"] (by decide) (by decide) (by decide) (by decide)

/-- C10: `generate_flashcards` fails closed to the empty list — not an
error-message string and not an exception — when the pipeline is absent,
and when called without content while the corpus is empty (vector index
absent or Document Store empty); `query` in the analogous empty-index
case instead returns the explanatory message string. -/
theorem C10_flashcards_fail_closed (s : RAGState) (task : Option PipelineTask)
    (gen : String → Nat → Except String String) (content : Option String)
    (ranking : List Nat) (question fmt : String)
    (h : s.vectorRows = none ∨ s.documents = []) :
    generate_flashcards s none gen content = []
    ∧ generate_flashcards s task gen none = []
    ∧ query s task ranking gen question none fmt
        = some "Please upload some study materials first!" := by
  refine ⟨rfl, ?_, ?_⟩
  · cases task with
    | none => rfl
    | some k =>
      unfold generate_flashcards
      dsimp only
      rw [if_pos h]
  · unfold query
    dsimp only
    rw [if_pos h]

theorem C10_flashcards_fail_closed_witness :
    generate_flashcards ⟨[], none⟩ none (fun _ _ => Except.ok "text") (some "c") = []
    ∧ generate_flashcards ⟨[], none⟩ (some .text2text)
        (fun _ _ => Except.ok "text") none = []
    ∧ query ⟨[], none⟩ (some .text2text) [] (fun _ _ => Except.ok "text") "q" none "full"
        = some "Please upload some study materials first!" :=
  C10_flashcards_fail_closed ⟨[], none⟩ (some .text2text) (fun _ _ => Except.ok "text")
    (some "c") [] "q" "full" (Or.inl rfl)

end StudyAssistant
